import Mathlib

/-!
# WiFi provisioning flow of `wifiManagement.h`

A shallow embedding of `manageWifi` and its helpers.  The sketch is a single
blocking function over global state; here the globals, the `/config.json` file
and the sequence of calls made to the outside world are carried explicitly.

Modelling choices:

* The collaborators the sketch links against (SPIFFS, ArduinoJson, WiFiManager,
  the digital input) are not in the repository: what they answer is an input of
  the run, collected in `Env`.  Of WiFiManager only the documented meaning of a
  field length is used: a form field keeps at most `length` characters.
* The three configuration buffers are declared in the main sketch.  They are
  modelled as strings without a capacity, and `strcpy` as assignment; `strcpy`
  from a null pointer ends the run in `Outcome.fault`.
* `ESP.reset()` does not return: it ends the run in `Outcome.restart`.
* A failed `SPIFFS.open(..., "w")` is taken to leave the file as it was.
-/

namespace WifiManagement

/-! ## Data model -/

/-- What a JSON member converts to when the sketch reads it as `const char*`:
only a string member gives a non-null pointer. -/
inductive JsonVariant where
  | str (s : String)
  | other
  deriving DecidableEq, Repr

/-- A parsed `JsonObject`: members in order. -/
abbrev JsonObject := List (String × JsonVariant)

/-- The two ArduinoJson entry points the sketch uses.  `parseObject` answers
`none` when `json.success()` is false. -/
structure JsonCodec where
  parseObject : String → Option JsonObject
  printTo : JsonObject → String

/-- The subscript `json[key]` converted to `const char*`; `none` is the null pointer. -/
def JsonObject.getCStr (json : JsonObject) (key : String) : Option String :=
  match json.lookup key with
  | some (JsonVariant.str s) => some s
  | _ => none

/-- The globals the function works on: the three configuration buffers of the
main sketch and the save flag (line 17). -/
structure Globals where
  forecast_id : String
  observation_id : String
  api_key : String
  shouldSaveConfig : Bool
  deriving DecidableEq, Repr

/-- At most `n` leading characters of `s`, the way the form field constructor
keeps its default (`strncpy` into a zeroed buffer of `n + 1` bytes). -/
def strncpy (n : Nat) (s : String) : String := ⟨s.data.take n⟩

/-- A `WiFiManagerParameter`.  The one-argument constructor gives a label
(no id, length 0); the four-argument one gives an editable field. -/
structure WiFiManagerParameter where
  id : Option String
  placeholder : Option String
  value : String
  length : Nat
  customHTML : String
  deriving DecidableEq, Repr

/-- Constructor `WiFiManagerParameter(custom)`. -/
def WiFiManagerParameter.label (custom : String) : WiFiManagerParameter :=
  ⟨none, none, "", 0, custom⟩

/-- Constructor `WiFiManagerParameter(id, placeholder, defaultValue, length)`. -/
def WiFiManagerParameter.field (id placeholder defaultValue : String) (length : Nat) :
    WiFiManagerParameter :=
  ⟨some id, some placeholder, strncpy length defaultValue, length, ""⟩

/-- The value of a field after the portal ran: untouched when the user
submitted nothing, otherwise the submitted text cut to the field length. -/
def WiFiManagerParameter.submit (p : WiFiManagerParameter) (input : Option String) :
    WiFiManagerParameter :=
  match input with
  | none => p
  | some v => { p with value := strncpy p.length v }

/-- `getValue()`. -/
def WiFiManagerParameter.getValue (p : WiFiManagerParameter) : String := p.value

/-- What one blocking call into the provisioning component does, seen from the
sketch: its boolean result, whether it entered access-point mode (firing
`configModeCallback`), whether it fired `saveConfigCallback`, and the text the
user submitted for each of the three editable fields. -/
structure Provisioning where
  connected : Bool
  enteredConfigMode : Bool
  saveFired : Bool
  forecastInput : Option String
  observationInput : Option String
  apiKeyInput : Option String

/-- Everything the run reads from outside the function. -/
structure Env where
  logging : Bool
  ap_ssid : String
  ap_password : String
  /-- Result of `SPIFFS.begin()`. -/
  mountOk : Bool
  /-- Whether `SPIFFS.open("/config.json", "r")` gives a valid file. -/
  openReadOk : Bool
  /-- Whether `SPIFFS.open("/config.json", "w")` gives a valid file. -/
  openWriteOk : Bool
  /-- Whether `digitalRead(switchPin) == HIGH`. -/
  switchHigh : Bool
  codec : JsonCodec
  /-- Behaviour of `startConfigPortal` if it is called. -/
  configPortal : Provisioning
  /-- Behaviour of `autoConnect` if it is called. -/
  autoConnect : Provisioning

/-- Calls made by the sketch, in order. -/
inductive Event where
  | logMsg (m n : String)
  | serial (s : String)
  | serialJson (json : Option JsonObject)
  | setSaveConfigCallback
  | addParameter (p : WiFiManagerParameter)
  | setTimeout (seconds : Nat)
  | setAPCallback
  | startConfigPortal (ssid password : String)
  | autoConnect (ssid password : String)
  | configModeCallback
  | saveConfigCallback
  | delay (ms : Nat)
  | reset
  | writeFile (content : String)
  | localIp
  deriving DecidableEq, Repr

/-- True for the two entry points of the provisioning component. -/
def Event.isProvisioning : Event → Bool
  | startConfigPortal _ _ => true
  | autoConnect _ _ => true
  | _ => false

/-- How a run ends: a normal return, the device restart of `ESP.reset()`, or a
fault (`strcpy` from a null pointer). -/
inductive Outcome where
  | returned (b : Bool)
  | restart
  | fault
  deriving DecidableEq, Repr

/-- Final state of a run. -/
structure Run where
  outcome : Outcome
  globals : Globals
  file : Option String
  trace : List Event
  deriving DecidableEq, Repr

/-! ## The code -/

/-- `logMsg`, guarded by `if (logging)` at every call site. -/
def logMsg (env : Env) (m n : String) : List Event :=
  if env.logging then [Event.logMsg m n] else []

/-- `configModeCallback` (lines 39-58): display and serial output only. -/
def configModeCallback : List Event := [Event.configModeCallback]

/-- `saveConfigCallback` (lines 34-37). -/
def saveConfigCallback (g : Globals) : Globals × List Event :=
  ({ g with shouldSaveConfig := true },
   [Event.serial "Should save config", Event.saveConfigCallback])

/-- The three `strcpy` calls of lines 92-94, in order; a null source faults and
leaves the later fields as they were. -/
def copyFromJson (json : JsonObject) (g : Globals) : Option Outcome × Globals :=
  match json.getCStr "forecast_id" with
  | none => (some Outcome.fault, g)
  | some f =>
    let g1 := { g with forecast_id := f }
    match json.getCStr "observation_id" with
    | none => (some Outcome.fault, g1)
    | some o =>
      let g2 := { g1 with observation_id := o }
      match json.getCStr "api_key" with
      | none => (some Outcome.fault, g2)
      | some a => (none, { g2 with api_key := a })

/-- The read block of `manageWifi` (lines 72-108).  The first component is
`none` when control falls through to the provisioning part. -/
def loadConfig (env : Env) (file : Option String) (g : Globals) :
    Option Outcome × Globals × List Event :=
  let t0 := logMsg env "1/4." "mounting FS..."
  if env.mountOk then
    let t1 := t0 ++ logMsg env "2/4." "mounted file system"
    match file with
    | none => (none, g, t1)
    | some content =>
      let t2 := t1 ++ logMsg env "3/4." "reading config file"
      if env.openReadOk then
        let t3 := t2 ++ logMsg env "4/4." "opened config file"
        let parsed := env.codec.parseObject content
        let t4 := t3 ++ [Event.serialJson parsed]
        match parsed with
        | some json =>
          let r := copyFromJson json g
          (r.1, r.2, t4 ++ [Event.serial "\nparsed json"])
        | none =>
          (some (Outcome.returned false), g, t4 ++ logMsg env "failed to load json config" "")
      else (none, g, t2)
  else
    (some (Outcome.returned false), g, t0 ++ logMsg env "failed to mount FS" "")

/-- The three editable form fields of lines 114, 116 and 118. -/
structure Form where
  custom_forecast_id : WiFiManagerParameter
  custom_observation_id : WiFiManagerParameter
  custom_api_key : WiFiManagerParameter
  deriving DecidableEq, Repr

/-- Label text of line 113. -/
def metoffice_text : WiFiManagerParameter :=
  WiFiManagerParameter.label "<h3>Met Office details</h3><b>Forecast ID</b>"

/-- Label text of line 115. -/
def forecast_text : WiFiManagerParameter :=
  WiFiManagerParameter.label "<br>To obtain a forecast site ID, call the following to return JSON of all sites: http://datapoint.metoffice.gov.uk/public/data/val/wxfcs/all/json/sitelist?key=YOUR_API_Key<br><br><b>Observation ID</b>"

/-- Label text of line 117. -/
def observation_text : WiFiManagerParameter :=
  WiFiManagerParameter.label "<br>To obtain an observation site ID, call the following to return JSON of all sites: http://datapoint.metoffice.gov.uk/public/data/val/wxobs/all/json/sitelist?key=YOUR_API_Key<br><br><b>API Key</b>"

/-- Label text of line 119. -/
def api_text : WiFiManagerParameter :=
  WiFiManagerParameter.label "<br>Register for Met Office Datapoint here: <a href=\x27http://www.metoffice.gov.uk/datapoint\x27>metoffice.gov.uk/datapoint</a>"

/-- The editable fields as constructed on lines 114-118, seeded from the
current globals with lengths 8, 16 and 40. -/
def buildForm (g : Globals) : Form :=
  { custom_forecast_id := WiFiManagerParameter.field "forecast_id" "forecast id" g.forecast_id 8
    custom_observation_id :=
      WiFiManagerParameter.field "observation_id" "observation id" g.observation_id 16
    custom_api_key := WiFiManagerParameter.field "api_key" "api key" g.api_key 40 }

/-- Lines 125-153: callbacks, the seven parameters in order, the timeout. -/
def setupEvents (form : Form) : List Event :=
  [ Event.setSaveConfigCallback,
    Event.addParameter metoffice_text,
    Event.addParameter form.custom_forecast_id,
    Event.addParameter forecast_text,
    Event.addParameter form.custom_observation_id,
    Event.addParameter observation_text,
    Event.addParameter form.custom_api_key,
    Event.addParameter api_text,
    Event.setTimeout 600,
    Event.setAPCallback ]

/-- The provisioning call chosen on line 156: the forced portal when the
switch reads HIGH, `autoConnect` otherwise. -/
def provisioningRun (env : Env) : Provisioning :=
  if env.switchHigh then env.configPortal else env.autoConnect

/-- The form after a provisioning call. -/
def Form.submit (form : Form) (p : Provisioning) : Form :=
  { custom_forecast_id := form.custom_forecast_id.submit p.forecastInput
    custom_observation_id := form.custom_observation_id.submit p.observationInput
    custom_api_key := form.custom_api_key.submit p.apiKeyInput }

/-- Callbacks run by the provisioning component while it blocks. -/
def runCallbacks (p : Provisioning) (g : Globals) : Globals × List Event :=
  let t := if p.enteredConfigMode then configModeCallback else []
  if p.saveFired then
    let r := saveConfigCallback g
    (r.1, t ++ r.2)
  else (g, t)

/-- The object built on lines 181-184. -/
def configJson (g : Globals) : JsonObject :=
  [ ("forecast_id", JsonVariant.str g.forecast_id),
    ("observation_id", JsonVariant.str g.observation_id),
    ("api_key", JsonVariant.str g.api_key) ]

/-- Lines 169-207: what runs once control passes the provisioning call. -/
def connectedSteps (env : Env) (form : Form) (file : Option String) (g : Globals)
    (t : List Event) : Run :=
  let t1 := t ++ logMsg env "connected." ""
  let g1 := { g with
    forecast_id := form.custom_forecast_id.getValue
    observation_id := form.custom_observation_id.getValue
    api_key := form.custom_api_key.getValue }
  let ip := if env.logging then [Event.localIp] else []
  if g1.shouldSaveConfig then
    let t2 := t1 ++ logMsg env "saving config." ""
    let json := configJson g1
    if env.openWriteOk then
      let content := env.codec.printTo json
      ⟨Outcome.returned true, g1, some content,
        t2 ++ [Event.serialJson (some json), Event.writeFile content] ++ ip⟩
    else
      ⟨Outcome.returned false, g1, file,
        t2 ++ logMsg env "failed to open config file for writing" ""⟩
  else
    ⟨Outcome.returned true, g1, file, t1 ++ ip⟩

/-- Lines 113-207: form construction, provisioning and what follows. -/
def provision (env : Env) (file : Option String) (g : Globals) (t : List Event) : Run :=
  let form := buildForm g
  let t1 := t ++ setupEvents form
  if env.switchHigh then
    -- line 156: the result of `startConfigPortal` is not looked at
    let p := env.configPortal
    let cb := runCallbacks p g
    connectedSteps env (form.submit p) file cb.1
      (t1 ++ [Event.startConfigPortal env.ap_ssid env.ap_password] ++ cb.2)
  else
    let p := env.autoConnect
    let cb := runCallbacks p g
    let t2 := t1 ++ [Event.autoConnect env.ap_ssid env.ap_password] ++ cb.2
    if p.connected then
      connectedSteps env (form.submit p) file cb.1 t2
    else
      ⟨Outcome.restart, cb.1, file,
        t2 ++ logMsg env "failed to connect and hit timeout" "" ++
          [Event.delay 3000, Event.reset]⟩

/-- The function `manageWifi` (lines 60-207). -/
def manageWifi (env : Env) (file : Option String) (g : Globals) : Run :=
  let l := loadConfig env file g
  match l.1 with
  | some o => ⟨o, l.2.1, file, l.2.2⟩
  | none => provision env file l.2.1 l.2.2

/-- The environment of a later load of the file: the filesystem mounts and the
file opens for reading. -/
def Env.reload (env : Env) : Env :=
  { env with mountOk := true, openReadOk := true }

/-- The three configuration values held in the globals. -/
def Globals.config (g : Globals) : String × String × String :=
  (g.forecast_id, g.observation_id, g.api_key)

/-- The call made on line 156 or 161. -/
def provisioningCall (env : Env) : Event :=
  if env.switchHigh then Event.startConfigPortal env.ap_ssid env.ap_password
  else Event.autoConnect env.ap_ssid env.ap_password

/-- The form as it stands when the provisioning call is over: built from the
globals left by the read block, then changed by what the user submitted. -/
def finalForm (env : Env) (file : Option String) (g : Globals) : Form :=
  (buildForm (loadConfig env file g).2.1).submit (provisioningRun env)

/-! ## A concrete codec for worked runs

The JSON library is a parameter of the embedding.  For closed examples a small
codec over flat objects with string members is fixed here: members are printed
as `"key":"value"` between braces, with `"` and `\` escaped by a backslash. -/

/-- Escape `"` and `\` in the characters of a string member. -/
def escapeChars : List Char → List Char
  | [] => []
  | c :: cs =>
    if c = '"' ∨ c = '\\' then '\\' :: c :: escapeChars cs else c :: escapeChars cs

/-- Print one member. -/
def printMember : String × JsonVariant → List Char
  | (k, JsonVariant.str v) =>
    ['"'] ++ escapeChars k.data ++ ['"', ':', '"'] ++ escapeChars v.data ++ ['"']
  | (k, JsonVariant.other) =>
    ['"'] ++ escapeChars k.data ++ ['"', ':', 'n', 'u', 'l', 'l']

/-- Print the members separated by commas. -/
def printMembers : JsonObject → List Char
  | [] => []
  | [m] => printMember m
  | m :: ms => printMember m ++ [','] ++ printMembers ms

/-- Print a flat object. -/
def miniPrint (json : JsonObject) : String :=
  ⟨['\x7b'] ++ printMembers json ++ ['\x7d']⟩

/-- Where the scanner of `miniParse` stands. -/
inductive Scan where
  | start
  | first
  | member (acc : JsonObject)
  | key (acc : JsonObject) (k : List Char) (esc : Bool)
  | colon (acc : JsonObject) (k : String)
  | value (acc : JsonObject) (k : String)
  | str (acc : JsonObject) (k : String) (v : List Char) (esc : Bool)
  | next (acc : JsonObject)
  | done (acc : JsonObject)

/-- One pass over the characters; `acc` holds the members read so far, last first. -/
def scan : Scan → List Char → Option JsonObject
  | Scan.done acc, [] => some acc.reverse
  | _, [] => none
  | Scan.start, c :: cs =>
    if c = ' ' then scan Scan.start cs
    else if c = '\x7b' then scan Scan.first cs else none
  | Scan.first, c :: cs =>
    if c = ' ' then scan Scan.first cs
    else if c = '\x7d' then scan (Scan.done []) cs
    else if c = '"' then scan (Scan.key [] [] false) cs else none
  | Scan.member acc, c :: cs =>
    if c = ' ' then scan (Scan.member acc) cs
    else if c = '"' then scan (Scan.key acc [] false) cs else none
  | Scan.key acc k true, c :: cs => scan (Scan.key acc (c :: k) false) cs
  | Scan.key acc k false, c :: cs =>
    if c = '\\' then scan (Scan.key acc k true) cs
    else if c = '"' then scan (Scan.colon acc ⟨k.reverse⟩) cs
    else scan (Scan.key acc (c :: k) false) cs
  | Scan.colon acc k, c :: cs =>
    if c = ' ' then scan (Scan.colon acc k) cs
    else if c = ':' then scan (Scan.value acc k) cs else none
  | Scan.value acc k, c :: cs =>
    if c = ' ' then scan (Scan.value acc k) cs
    else if c = '"' then scan (Scan.str acc k [] false) cs else none
  | Scan.str acc k v true, c :: cs => scan (Scan.str acc k (c :: v) false) cs
  | Scan.str acc k v false, c :: cs =>
    if c = '\\' then scan (Scan.str acc k v true) cs
    else if c = '"' then scan (Scan.next ((k, JsonVariant.str ⟨v.reverse⟩) :: acc)) cs
    else scan (Scan.str acc k (c :: v) false) cs
  | Scan.next acc, c :: cs =>
    if c = ' ' then scan (Scan.next acc) cs
    else if c = ',' then scan (Scan.member acc) cs
    else if c = '\x7d' then scan (Scan.done acc) cs else none
  | Scan.done acc, c :: cs =>
    if c = ' ' ∨ c = '\n' then scan (Scan.done acc) cs else none

/-- Parse a flat object with string members. -/
def miniParse (content : String) : Option JsonObject := scan Scan.start content.data

/-- The codec used in the worked runs. -/
def miniJson : JsonCodec := ⟨miniParse, miniPrint⟩

/-! ## Worked inputs -/

/-- Compiled-in defaults standing for those of the main sketch. -/
def sampleDefaults : Globals := ⟨"310042", "3772", "key", false⟩

/-- A portal call that joins the network without the user touching the form. -/
def quietSuccess : Provisioning := ⟨true, false, false, none, none, none⟩

/-- A portal call in which the user submits a new forecast id together with
credentials that do not work, and which then ends on the timeout. -/
def portalTimeout : Provisioning := ⟨false, true, false, some "350001", none, none⟩

/-- A portal call in which the user saves a new forecast id and the device joins. -/
def userSaved : Provisioning := ⟨true, true, true, some "350001", none, none⟩

/-- A device with logging on, a working filesystem and the switch released. -/
def sampleEnv : Env :=
  { logging := true, ap_ssid := "MetOffice", ap_password := "password",
    mountOk := true, openReadOk := true, openWriteOk := true, switchHigh := false,
    codec := miniJson, configPortal := userSaved, autoConnect := quietSuccess }

/-- The same device with the switch held down at boot and a portal that times out. -/
def forcedTimeoutEnv : Env :=
  { sampleEnv with switchHigh := true, configPortal := portalTimeout }

/-- The same device with the switch held down at boot, while the stored
credentials would have connected. -/
def forcedPortalEnv : Env :=
  { sampleEnv with switchHigh := true }

/-- A device on which the user saves through the portal and the write works. -/
def savingEnv : Env :=
  { sampleEnv with autoConnect := userSaved }

/-- A stored file whose values all fit the form lengths. -/
def storedFile : String :=
  "\x7b\"forecast_id\":\"350001\",\"observation_id\":\"3002\",\"api_key\":\"abc\"\x7d"

theorem mem_logMsg (env : Env) (m n : String) (e : Event) :
    e ∈ logMsg env m n ↔ env.logging = true ∧ e = Event.logMsg m n := by
  unfold logMsg
  split <;> simp_all

theorem copyFromJson_keeps_flag (json : JsonObject) (g : Globals) :
    (copyFromJson json g).2.shouldSaveConfig = g.shouldSaveConfig := by
  unfold copyFromJson
  split
  · rfl
  · split
    · rfl
    · split <;> rfl

theorem loadConfig_mount_failed (env : Env) (file : Option String) (g : Globals)
    (hm : env.mountOk = false) :
    loadConfig env file g =
      (some (Outcome.returned false), g,
        logMsg env "1/4." "mounting FS..." ++ logMsg env "failed to mount FS" "") := by
  simp [loadConfig, hm]

theorem loadConfig_no_file (env : Env) (g : Globals) (hm : env.mountOk = true) :
    loadConfig env none g =
      (none, g, logMsg env "1/4." "mounting FS..." ++ logMsg env "2/4." "mounted file system") := by
  simp [loadConfig, hm]

theorem loadConfig_open_failed (env : Env) (c : String) (g : Globals)
    (hm : env.mountOk = true) (ho : env.openReadOk = false) :
    loadConfig env (some c) g =
      (none, g, logMsg env "1/4." "mounting FS..." ++ logMsg env "2/4." "mounted file system" ++
        logMsg env "3/4." "reading config file") := by
  simp [loadConfig, hm, ho]

theorem loadConfig_parse_failed (env : Env) (c : String) (g : Globals)
    (hm : env.mountOk = true) (ho : env.openReadOk = true)
    (hp : env.codec.parseObject c = none) :
    loadConfig env (some c) g =
      (some (Outcome.returned false), g,
        logMsg env "1/4." "mounting FS..." ++ logMsg env "2/4." "mounted file system" ++
        logMsg env "3/4." "reading config file" ++ logMsg env "4/4." "opened config file" ++
        [Event.serialJson none] ++ logMsg env "failed to load json config" "") := by
  simp [loadConfig, hm, ho, hp]

theorem loadConfig_parsed (env : Env) (c : String) (g : Globals) (json : JsonObject)
    (hm : env.mountOk = true) (ho : env.openReadOk = true)
    (hp : env.codec.parseObject c = some json) :
    loadConfig env (some c) g =
      ((copyFromJson json g).1, (copyFromJson json g).2,
        logMsg env "1/4." "mounting FS..." ++ logMsg env "2/4." "mounted file system" ++
        logMsg env "3/4." "reading config file" ++ logMsg env "4/4." "opened config file" ++
        [Event.serialJson (some json)] ++ [Event.serial "\nparsed json"]) := by
  simp [loadConfig, hm, ho, hp]

/-- The read block ends in one of five ways. -/
theorem loadConfig_cases (env : Env) (file : Option String) :
    (env.mountOk = false) ∨ (env.mountOk = true ∧ file = none) ∨
    (∃ c, env.mountOk = true ∧ file = some c ∧ env.openReadOk = false) ∨
    (∃ c, env.mountOk = true ∧ file = some c ∧ env.openReadOk = true ∧
      env.codec.parseObject c = none) ∨
    (∃ c json, env.mountOk = true ∧ file = some c ∧ env.openReadOk = true ∧
      env.codec.parseObject c = some json) := by
  cases hm : env.mountOk
  · simp
  · cases file with
    | none => simp
    | some c =>
      cases ho : env.openReadOk
      · simp
      · cases hp : env.codec.parseObject c <;> simp [hp]

theorem loadConfig_not_provisioning (env : Env) (file : Option String) (g : Globals) :
    ∀ e ∈ (loadConfig env file g).2.2, e.isProvisioning = false := by
  intro e he
  rcases loadConfig_cases env file with hm | ⟨hm, hf⟩ | ⟨c, hm, hf, ho⟩ | ⟨c, hm, hf, ho, hp⟩ |
    ⟨c, json, hm, hf, ho, hp⟩
  · rw [loadConfig_mount_failed env file g hm] at he
    simp [mem_logMsg] at he
    rcases he with he | he <;> simp [he.2, Event.isProvisioning]
  · subst hf
    rw [loadConfig_no_file env g hm] at he
    simp [mem_logMsg] at he
    rcases he with he | he <;> simp [he.2, Event.isProvisioning]
  · subst hf
    rw [loadConfig_open_failed env c g hm ho] at he
    simp [mem_logMsg] at he
    rcases he with he | he | he <;> simp [he.2, Event.isProvisioning]
  · subst hf
    rw [loadConfig_parse_failed env c g hm ho hp] at he
    simp [mem_logMsg] at he
    rcases he with he | he | he | he | he | he <;> simp [he, Event.isProvisioning]
  · subst hf
    rw [loadConfig_parsed env c g json hm ho hp] at he
    simp [mem_logMsg] at he
    rcases he with he | he | he | he | he | he <;> simp [he, Event.isProvisioning]

theorem loadConfig_no_callback (env : Env) (file : Option String) (g : Globals) :
    Event.saveConfigCallback ∉ (loadConfig env file g).2.2 := by
  intro he
  have h := loadConfig_not_provisioning env file g
  rcases loadConfig_cases env file with hm | ⟨hm, hf⟩ | ⟨c, hm, hf, ho⟩ | ⟨c, hm, hf, ho, hp⟩ |
    ⟨c, json, hm, hf, ho, hp⟩
  · rw [loadConfig_mount_failed env file g hm] at he
    simp [mem_logMsg] at he
  · subst hf
    rw [loadConfig_no_file env g hm] at he
    simp [mem_logMsg] at he
  · subst hf
    rw [loadConfig_open_failed env c g hm ho] at he
    simp [mem_logMsg] at he
  · subst hf
    rw [loadConfig_parse_failed env c g hm ho hp] at he
    simp [mem_logMsg] at he
  · subst hf
    rw [loadConfig_parsed env c g json hm ho hp] at he
    simp [mem_logMsg] at he

theorem loadConfig_keeps_flag (env : Env) (file : Option String) (g : Globals) :
    (loadConfig env file g).2.1.shouldSaveConfig = g.shouldSaveConfig := by
  rcases loadConfig_cases env file with hm | ⟨hm, hf⟩ | ⟨c, hm, hf, ho⟩ | ⟨c, hm, hf, ho, hp⟩ |
    ⟨c, json, hm, hf, ho, hp⟩
  · rw [loadConfig_mount_failed env file g hm]
  · subst hf
    rw [loadConfig_no_file env g hm]
  · subst hf
    rw [loadConfig_open_failed env c g hm ho]
  · subst hf
    rw [loadConfig_parse_failed env c g hm ho hp]
  · subst hf
    rw [loadConfig_parsed env c g json hm ho hp]
    exact copyFromJson_keeps_flag json g

/-! ## Facts about the provisioning part -/

theorem setupEvents_not_provisioning (form : Form) :
    ∀ e ∈ setupEvents form, e.isProvisioning = false := by
  intro e he
  simp [setupEvents] at he
  rcases he with he | he | he | he | he | he | he | he | he | he <;>
    simp [he, Event.isProvisioning]

theorem runCallbacks_not_provisioning (p : Provisioning) (g : Globals) :
    ∀ e ∈ (runCallbacks p g).2, e.isProvisioning = false := by
  unfold runCallbacks
  cases h1 : p.enteredConfigMode <;> cases h2 : p.saveFired <;>
    simp [saveConfigCallback, configModeCallback, Event.isProvisioning]

/-- The steps after the provisioning call only append to the trace, and what
they append holds no call into the provisioning component. -/
theorem connectedSteps_trace (env : Env) (form : Form) (file : Option String) (g : Globals)
    (t : List Event) :
    ∃ s, (connectedSteps env form file g t).trace = t ++ s ∧
      ∀ e ∈ s, e.isProvisioning = false ∧ e ≠ Event.saveConfigCallback ∧ e ≠ Event.reset := by
  unfold connectedSteps
  cases hl : env.logging <;> cases hs : g.shouldSaveConfig <;> cases hw : env.openWriteOk <;>
    simp [logMsg, hl, hs, hw, Event.isProvisioning]

/-- Shape of the trace of the provisioning part: what came before, the setup
calls, exactly one call into the provisioning component, and a rest without any. -/
theorem provision_trace (env : Env) (file : Option String) (g : Globals) (t : List Event) :
    ∃ s, (provision env file g t).trace =
        t ++ setupEvents (buildForm g) ++ [provisioningCall env] ++ s ∧
      ∀ e ∈ s, e.isProvisioning = false := by
  unfold provision provisioningCall
  cases hsw : env.switchHigh
  · cases hc : env.autoConnect.connected
    · refine ⟨(runCallbacks env.autoConnect g).2 ++
        logMsg env "failed to connect and hit timeout" "" ++ [Event.delay 3000, Event.reset], ?_, ?_⟩
      · simp [hc]
      · intro e he
        simp [mem_logMsg] at he
        rcases he with he | he | he | he
        · exact runCallbacks_not_provisioning _ _ e he
        · simp [he.2, Event.isProvisioning]
        · simp [he, Event.isProvisioning]
        · simp [he, Event.isProvisioning]
    · obtain ⟨s, hs, hs2⟩ := connectedSteps_trace env ((buildForm g).submit env.autoConnect) file
        (runCallbacks env.autoConnect g).1
        (t ++ setupEvents (buildForm g) ++ [Event.autoConnect env.ap_ssid env.ap_password] ++
          (runCallbacks env.autoConnect g).2)
      refine ⟨(runCallbacks env.autoConnect g).2 ++ s, ?_, ?_⟩
      · simpa [hc] using hs
      · intro e he
        simp at he
        rcases he with he | he
        · exact runCallbacks_not_provisioning _ _ e he
        · exact (hs2 e he).1
  · obtain ⟨s, hs, hs2⟩ := connectedSteps_trace env ((buildForm g).submit env.configPortal) file
      (runCallbacks env.configPortal g).1
      (t ++ setupEvents (buildForm g) ++ [Event.startConfigPortal env.ap_ssid env.ap_password] ++
        (runCallbacks env.configPortal g).2)
    refine ⟨(runCallbacks env.configPortal g).2 ++ s, ?_, ?_⟩
    · simpa using hs
    · intro e he
      simp at he
      rcases he with he | he
      · exact runCallbacks_not_provisioning _ _ e he
      · exact (hs2 e he).1

theorem manageWifi_of_load_none (env : Env) (file : Option String) (g : Globals)
    (h : (loadConfig env file g).1 = none) :
    manageWifi env file g =
      provision env file (loadConfig env file g).2.1 (loadConfig env file g).2.2 := by
  simp [manageWifi, h]

theorem manageWifi_of_load_some (env : Env) (file : Option String) (g : Globals) (o : Outcome)
    (h : (loadConfig env file g).1 = some o) :
    manageWifi env file g = ⟨o, (loadConfig env file g).2.1, file, (loadConfig env file g).2.2⟩ := by
  simp [manageWifi, h]

theorem runCallbacks_globals (p : Provisioning) (g : Globals) :
    (runCallbacks p g).1 = { g with shouldSaveConfig := g.shouldSaveConfig || p.saveFired } := by
  unfold runCallbacks
  cases h : p.saveFired <;> simp [saveConfigCallback]

theorem mem_runCallbacks (p : Provisioning) (g : Globals) :
    Event.saveConfigCallback ∈ (runCallbacks p g).2 ↔ p.saveFired = true := by
  unfold runCallbacks
  cases h1 : p.enteredConfigMode <;> cases h2 : p.saveFired <;>
    simp [saveConfigCallback, configModeCallback]

/-- When control passes the provisioning call, the rest of the run is
`connectedSteps` on the submitted form. -/
theorem provision_passed (env : Env) (file : Option String) (g : Globals) (t : List Event)
    (h : env.switchHigh = true ∨ (provisioningRun env).connected = true) :
    provision env file g t =
      connectedSteps env ((buildForm g).submit (provisioningRun env)) file
        (runCallbacks (provisioningRun env) g).1
        (t ++ setupEvents (buildForm g) ++ [provisioningCall env] ++
          (runCallbacks (provisioningRun env) g).2) := by
  unfold provision provisioningRun provisioningCall
  cases hsw : env.switchHigh
  · have hc : env.autoConnect.connected = true := by
      simpa [provisioningRun, hsw] using h
    simp [hc]
  · simp

/-- When `autoConnect` reports failure the run ends in the restart. -/
theorem provision_restart (env : Env) (file : Option String) (g : Globals) (t : List Event)
    (hsw : env.switchHigh = false) (hc : env.autoConnect.connected = false) :
    provision env file g t =
      ⟨Outcome.restart, (runCallbacks env.autoConnect g).1, file,
        t ++ setupEvents (buildForm g) ++ [Event.autoConnect env.ap_ssid env.ap_password] ++
          (runCallbacks env.autoConnect g).2 ++
          logMsg env "failed to connect and hit timeout" "" ++
          [Event.delay 3000, Event.reset]⟩ := by
  unfold provision
  simp [hsw, hc]

theorem connectedSteps_globals (env : Env) (form : Form) (file : Option String) (g : Globals)
    (t : List Event) :
    (connectedSteps env form file g t).globals =
      { g with
        forecast_id := form.custom_forecast_id.getValue
        observation_id := form.custom_observation_id.getValue
        api_key := form.custom_api_key.getValue } := by
  unfold connectedSteps
  cases hs : g.shouldSaveConfig <;> cases hw : env.openWriteOk <;> simp

theorem connectedSteps_not_saved (env : Env) (form : Form) (file : Option String) (g : Globals)
    (t : List Event) (hs : g.shouldSaveConfig = false) :
    (connectedSteps env form file g t).outcome = Outcome.returned true ∧
    (connectedSteps env form file g t).file = file := by
  unfold connectedSteps
  simp [hs]

theorem connectedSteps_saved (env : Env) (form : Form) (file : Option String) (g : Globals)
    (t : List Event) (hs : g.shouldSaveConfig = true) (hw : env.openWriteOk = true) :
    (connectedSteps env form file g t).outcome = Outcome.returned true ∧
    (connectedSteps env form file g t).file =
      some (env.codec.printTo (configJson (connectedSteps env form file g t).globals)) := by
  unfold connectedSteps
  simp [hs, hw]

theorem switch_or_connected (env : Env) :
    (env.switchHigh = true ∨ (provisioningRun env).connected = true) ∨
    (env.switchHigh = false ∧ env.autoConnect.connected = false) := by
  unfold provisioningRun
  cases h1 : env.switchHigh <;> cases h2 : env.autoConnect.connected <;> simp [h2]

/-- The save callback shows in the trace exactly when the run reached the
provisioning call and that call fired it. -/
theorem callback_mem_trace (env : Env) (file : Option String) (g : Globals) :
    Event.saveConfigCallback ∈ (manageWifi env file g).trace ↔
      (loadConfig env file g).1 = none ∧ (provisioningRun env).saveFired = true := by
  have hl := loadConfig_no_callback env file g
  cases hload : (loadConfig env file g).1 with
  | some o =>
    rw [manageWifi_of_load_some env file g o hload]
    simp [hl]
  | none =>
    rw [manageWifi_of_load_none env file g hload]
    rcases switch_or_connected env with h | ⟨hsw, hc⟩
    · rw [provision_passed env file _ _ h]
      obtain ⟨s, hs, hs2⟩ := connectedSteps_trace env
        ((buildForm (loadConfig env file g).2.1).submit (provisioningRun env)) file
        (runCallbacks (provisioningRun env) (loadConfig env file g).2.1).1
        ((loadConfig env file g).2.2 ++ setupEvents (buildForm (loadConfig env file g).2.1) ++
          [provisioningCall env] ++
          (runCallbacks (provisioningRun env) (loadConfig env file g).2.1).2)
      rw [hs]
      have hs3 : Event.saveConfigCallback ∉ s := fun hmem => (hs2 _ hmem).2.1 rfl
      simp [hl, hs3, mem_runCallbacks, setupEvents, provisioningCall]
      split <;> simp
    · rw [provision_restart env file _ _ hsw hc]
      have hp : provisioningRun env = env.autoConnect := by simp [provisioningRun, hsw]
      simp [hl, mem_runCallbacks, setupEvents, mem_logMsg, hp]

theorem getCStr_configJson (g : Globals) :
    (configJson g).getCStr "forecast_id" = some g.forecast_id ∧
    (configJson g).getCStr "observation_id" = some g.observation_id ∧
    (configJson g).getCStr "api_key" = some g.api_key := by
  refine ⟨?_, ?_, ?_⟩ <;> simp [configJson, JsonObject.getCStr, List.lookup]

theorem copyFromJson_of_members (json : JsonObject) (g : Globals) (f o a : String)
    (hf : json.getCStr "forecast_id" = some f)
    (hob : json.getCStr "observation_id" = some o)
    (ha : json.getCStr "api_key" = some a) :
    copyFromJson json g = (none, ⟨f, o, a, g.shouldSaveConfig⟩) := by
  simp [copyFromJson, hf, hob, ha]

/-- A later load of a file that parses to three string members. -/
theorem reload_of_members (env : Env) (c : String) (g0 : Globals) (json : JsonObject)
    (f o a : String) (hp : env.codec.parseObject c = some json)
    (hf : json.getCStr "forecast_id" = some f)
    (hob : json.getCStr "observation_id" = some o)
    (ha : json.getCStr "api_key" = some a) :
    (loadConfig env.reload (some c) g0).1 = none ∧
    (loadConfig env.reload (some c) g0).2.1.config = (f, o, a) := by
  have hp2 : env.reload.codec.parseObject c = some json := hp
  rw [loadConfig_parsed env.reload c g0 json rfl rfl hp2,
    copyFromJson_of_members json g0 f o a hf hob ha]
  exact ⟨rfl, rfl⟩

/-- C3: if the mount fails, or the file exists, opens and does not parse, then
`manageWifi` returns false, its trace holds no call of `startConfigPortal` or
`autoConnect`, and the globals (three fields and `shouldSaveConfig`) and the file
are as on entry. -/
theorem load_failure_aborts (env : Env) (file : Option String) (g : Globals)
    (h : env.mountOk = false ∨
      (∃ c, file = some c ∧ env.openReadOk = true ∧ env.codec.parseObject c = none)) :
    (manageWifi env file g).outcome = Outcome.returned false ∧
    (∀ e ∈ (manageWifi env file g).trace, e.isProvisioning = false) ∧
    (manageWifi env file g).globals = g ∧
    (manageWifi env file g).file = file := by
  have hl : loadConfig env file g =
      (some (Outcome.returned false), g, (loadConfig env file g).2.2) := by
    cases hm : env.mountOk
    · rw [loadConfig_mount_failed env file g hm]
    · rcases h with h | ⟨c, hf, ho, hp⟩
      · simp [hm] at h
      · subst hf
        rw [loadConfig_parse_failed env c g hm ho hp]
  have h1 : (loadConfig env file g).1 = some (Outcome.returned false) := by rw [hl]
  have h2 : (loadConfig env file g).2.1 = g := by rw [hl]
  rw [manageWifi_of_load_some env file g _ h1]
  exact ⟨rfl, loadConfig_not_provisioning env file g, h2, rfl⟩

/-- Witness for C3: a file that is not JSON on a device whose filesystem mounts. -/
theorem load_failure_aborts_witness :
    (manageWifi sampleEnv (some "not json") sampleDefaults).outcome = Outcome.returned false ∧
    (∀ e ∈ (manageWifi sampleEnv (some "not json") sampleDefaults).trace,
      e.isProvisioning = false) ∧
    (manageWifi sampleEnv (some "not json") sampleDefaults).globals = sampleDefaults ∧
    (manageWifi sampleEnv (some "not json") sampleDefaults).file = some "not json" :=
  load_failure_aborts sampleEnv (some "not json") sampleDefaults
    (Or.inr ⟨"not json", rfl, rfl, by decide⟩)

/-- C4: when the file parses as an object with string members `forecast_id`,
`observation_id` and `api_key` of at most 8, 16 and 40 characters, the read block
falls through with the three fields equal to exactly those members, whatever
they held before. -/
theorem load_sets_fields (env : Env) (c : String) (g : Globals) (json : JsonObject)
    (f o a : String)
    (hm : env.mountOk = true) (ho : env.openReadOk = true)
    (hp : env.codec.parseObject c = some json)
    (hf : json.getCStr "forecast_id" = some f)
    (hob : json.getCStr "observation_id" = some o)
    (ha : json.getCStr "api_key" = some a)
    (_hlf : f.length ≤ 8) (_hlo : o.length ≤ 16) (_hla : a.length ≤ 40) :
    (loadConfig env (some c) g).1 = none ∧
    (loadConfig env (some c) g).2.1.forecast_id = f ∧
    (loadConfig env (some c) g).2.1.observation_id = o ∧
    (loadConfig env (some c) g).2.1.api_key = a := by
  rw [loadConfig_parsed env c g json hm ho hp]
  simp [copyFromJson, hf, hob, ha]

/-- Witness for C4: a stored file with three short values. -/
theorem load_sets_fields_witness :
    (loadConfig sampleEnv (some storedFile) sampleDefaults).1 = none ∧
    (loadConfig sampleEnv (some storedFile) sampleDefaults).2.1.forecast_id = "350001" ∧
    (loadConfig sampleEnv (some storedFile) sampleDefaults).2.1.observation_id = "3002" ∧
    (loadConfig sampleEnv (some storedFile) sampleDefaults).2.1.api_key = "abc" :=
  load_sets_fields sampleEnv storedFile sampleDefaults
    [("forecast_id", JsonVariant.str "350001"), ("observation_id", JsonVariant.str "3002"),
      ("api_key", JsonVariant.str "abc")]
    "350001" "3002" "abc" rfl rfl (by decide) (by decide) (by decide) (by decide)
    (by decide) (by decide) (by decide)

/-- C9: when the mount succeeds and there is no file, the read block reports
nothing and leaves the globals as on entry, the run goes on to call the
provisioning component, and the three form fields handed to it are built from
the entry values with lengths 8, 16 and 40. -/
theorem missing_file_uses_defaults (env : Env) (g : Globals) (hm : env.mountOk = true) :
    (loadConfig env none g).1 = none ∧
    (loadConfig env none g).2.1 = g ∧
    provisioningCall env ∈ (manageWifi env none g).trace ∧
    Event.addParameter (WiFiManagerParameter.field "forecast_id" "forecast id" g.forecast_id 8)
      ∈ (manageWifi env none g).trace ∧
    Event.addParameter
      (WiFiManagerParameter.field "observation_id" "observation id" g.observation_id 16)
      ∈ (manageWifi env none g).trace ∧
    Event.addParameter (WiFiManagerParameter.field "api_key" "api key" g.api_key 40)
      ∈ (manageWifi env none g).trace := by
  have hl := loadConfig_no_file env g hm
  have h1 : (loadConfig env none g).1 = none := by rw [hl]
  have h2 : (loadConfig env none g).2.1 = g := by rw [hl]
  rw [manageWifi_of_load_none env none g h1, h2]
  obtain ⟨s, hs, -⟩ := provision_trace env none g (loadConfig env none g).2.2
  rw [hs]
  refine ⟨h1, rfl, ?_, ?_, ?_, ?_⟩ <;> simp [setupEvents, buildForm]

/-- Witness for C9: first boot, no file stored yet. -/
theorem missing_file_uses_defaults_witness :
    (loadConfig sampleEnv none sampleDefaults).1 = none ∧
    (loadConfig sampleEnv none sampleDefaults).2.1 = sampleDefaults ∧
    provisioningCall sampleEnv ∈ (manageWifi sampleEnv none sampleDefaults).trace ∧
    Event.addParameter
      (WiFiManagerParameter.field "forecast_id" "forecast id" sampleDefaults.forecast_id 8)
      ∈ (manageWifi sampleEnv none sampleDefaults).trace ∧
    Event.addParameter
      (WiFiManagerParameter.field "observation_id" "observation id"
        sampleDefaults.observation_id 16)
      ∈ (manageWifi sampleEnv none sampleDefaults).trace ∧
    Event.addParameter
      (WiFiManagerParameter.field "api_key" "api key" sampleDefaults.api_key 40)
      ∈ (manageWifi sampleEnv none sampleDefaults).trace :=
  missing_file_uses_defaults sampleEnv sampleDefaults rfl

/-- C10: in a run that reaches the provisioning step, a switch reading HIGH
means `startConfigPortal` is called with `ap_ssid` and `ap_password` and
`autoConnect` is not called at all, whatever `autoConnect` would have answered;
otherwise `autoConnect` is called with them and `startConfigPortal` is not. -/
theorem switch_selects_portal (env : Env) (file : Option String) (g : Globals)
    (hreach : (loadConfig env file g).1 = none) :
    (env.switchHigh = true →
      Event.startConfigPortal env.ap_ssid env.ap_password ∈ (manageWifi env file g).trace ∧
      ∀ ssid pw, Event.autoConnect ssid pw ∉ (manageWifi env file g).trace) ∧
    (env.switchHigh = false →
      Event.autoConnect env.ap_ssid env.ap_password ∈ (manageWifi env file g).trace ∧
      ∀ ssid pw, Event.startConfigPortal ssid pw ∉ (manageWifi env file g).trace) := by
  rw [manageWifi_of_load_none env file g hreach]
  obtain ⟨s, hs, hs2⟩ := provision_trace env file (loadConfig env file g).2.1
    (loadConfig env file g).2.2
  rw [hs]
  have hl := loadConfig_not_provisioning env file g
  have hsetup := setupEvents_not_provisioning (buildForm (loadConfig env file g).2.1)
  constructor
  · intro hsw
    refine ⟨by simp [provisioningCall, hsw], ?_⟩
    intro ssid pw hmem
    simp [provisioningCall, hsw] at hmem
    rcases hmem with hmem | hmem | hmem
    · simpa [Event.isProvisioning] using hl _ hmem
    · simpa [Event.isProvisioning] using hsetup _ hmem
    · simpa [Event.isProvisioning] using hs2 _ hmem
  · intro hsw
    refine ⟨by simp [provisioningCall, hsw], ?_⟩
    intro ssid pw hmem
    simp [provisioningCall, hsw] at hmem
    rcases hmem with hmem | hmem | hmem
    · simpa [Event.isProvisioning] using hl _ hmem
    · simpa [Event.isProvisioning] using hsetup _ hmem
    · simpa [Event.isProvisioning] using hs2 _ hmem

/-- Witness for C10: the switch is held down although the stored credentials
would have connected. -/
theorem switch_selects_portal_witness :
    (forcedPortalEnv.switchHigh = true →
      Event.startConfigPortal forcedPortalEnv.ap_ssid forcedPortalEnv.ap_password ∈
        (manageWifi forcedPortalEnv (some storedFile) sampleDefaults).trace ∧
      ∀ ssid pw, Event.autoConnect ssid pw ∉
        (manageWifi forcedPortalEnv (some storedFile) sampleDefaults).trace) ∧
    (forcedPortalEnv.switchHigh = false →
      Event.autoConnect forcedPortalEnv.ap_ssid forcedPortalEnv.ap_password ∈
        (manageWifi forcedPortalEnv (some storedFile) sampleDefaults).trace ∧
      ∀ ssid pw, Event.startConfigPortal ssid pw ∉
        (manageWifi forcedPortalEnv (some storedFile) sampleDefaults).trace) :=
  switch_selects_portal forcedPortalEnv (some storedFile) sampleDefaults (by decide)

/-- C2 at the forced portal: the switch is held down, `startConfigPortal`
reports failure after the timeout, and the run still logs "connected.", copies
the submitted form value into `forecast_id` and returns true; no restart
happens. -/
theorem forced_portal_timeout_returns :
    forcedTimeoutEnv.switchHigh = true ∧
    (provisioningRun forcedTimeoutEnv).connected = false ∧
    (manageWifi forcedTimeoutEnv none sampleDefaults).outcome = Outcome.returned true ∧
    Event.reset ∉ (manageWifi forcedTimeoutEnv none sampleDefaults).trace ∧
    Event.logMsg "connected." "" ∈ (manageWifi forcedTimeoutEnv none sampleDefaults).trace ∧
    (manageWifi forcedTimeoutEnv none sampleDefaults).globals.forecast_id = "350001" := by
  decide

/-- C5: in a run where the provisioning call reports a connection, the save
callback fires and the file opens for writing, `manageWifi` returns true and,
for a codec that reads back the object it printed, loading the written file
gives exactly the three values read back from the form, whatever the fields
held before that load. -/
theorem load_undoes_save (env : Env) (file : Option String) (g g0 : Globals)
    (hconn : (provisioningRun env).connected = true)
    (hfired : Event.saveConfigCallback ∈ (manageWifi env file g).trace)
    (hw : env.openWriteOk = true)
    (hrt : env.codec.parseObject (env.codec.printTo (configJson (manageWifi env file g).globals))
      = some (configJson (manageWifi env file g).globals)) :
    (manageWifi env file g).outcome = Outcome.returned true ∧
    (loadConfig env.reload (manageWifi env file g).file g0).1 = none ∧
    (loadConfig env.reload (manageWifi env file g).file g0).2.1.config =
      ((finalForm env file g).custom_forecast_id.getValue,
       (finalForm env file g).custom_observation_id.getValue,
       (finalForm env file g).custom_api_key.getValue) := by
  obtain ⟨hreach, hf⟩ := (callback_mem_trace env file g).1 hfired
  have hpass := provision_passed env file (loadConfig env file g).2.1 (loadConfig env file g).2.2
    (Or.inr hconn)
  have hrun := manageWifi_of_load_none env file g hreach
  rw [hpass] at hrun
  have hflag : (runCallbacks (provisioningRun env) (loadConfig env file g).2.1).1.shouldSaveConfig
      = true := by
    rw [runCallbacks_globals]
    simp [hf]
  have hsaved := connectedSteps_saved env
    ((buildForm (loadConfig env file g).2.1).submit (provisioningRun env)) file _
    ((loadConfig env file g).2.2 ++ setupEvents (buildForm (loadConfig env file g).2.1) ++
      [provisioningCall env] ++ (runCallbacks (provisioningRun env) (loadConfig env file g).2.1).2)
    hflag hw
  have hglob := connectedSteps_globals env
    ((buildForm (loadConfig env file g).2.1).submit (provisioningRun env)) file
    (runCallbacks (provisioningRun env) (loadConfig env file g).2.1).1
    ((loadConfig env file g).2.2 ++ setupEvents (buildForm (loadConfig env file g).2.1) ++
      [provisioningCall env] ++ (runCallbacks (provisioningRun env) (loadConfig env file g).2.1).2)
  rw [← hrun] at hsaved hglob
  obtain ⟨hout, hfile⟩ := hsaved
  obtain ⟨h1, h2, h3⟩ := getCStr_configJson (manageWifi env file g).globals
  have hre := reload_of_members env _ g0 _ _ _ _ hrt h1 h2 h3
  rw [← hfile] at hre
  refine ⟨hout, hre.1, ?_⟩
  rw [hre.2, hglob]
  rfl

/-- Witness for C5: the user saves a new forecast id and a later load returns it. -/
theorem load_undoes_save_witness :
    (manageWifi savingEnv (some storedFile) sampleDefaults).outcome = Outcome.returned true ∧
    (loadConfig savingEnv.reload (manageWifi savingEnv (some storedFile) sampleDefaults).file
      sampleDefaults).1 = none ∧
    (loadConfig savingEnv.reload (manageWifi savingEnv (some storedFile) sampleDefaults).file
      sampleDefaults).2.1.config =
      ((finalForm savingEnv (some storedFile) sampleDefaults).custom_forecast_id.getValue,
       (finalForm savingEnv (some storedFile) sampleDefaults).custom_observation_id.getValue,
       (finalForm savingEnv (some storedFile) sampleDefaults).custom_api_key.getValue) :=
  load_undoes_save savingEnv (some storedFile) sampleDefaults sampleDefaults (by decide)
    (by decide) (by decide) (by decide)

/-- C6: a run that starts with `shouldSaveConfig` false and in which the save
callback does not fire leaves the file (existence and content) as it was,
whichever way the run ends. -/
theorem file_unchanged_without_save (env : Env) (file : Option String) (g : Globals)
    (hflag : g.shouldSaveConfig = false)
    (hquiet : Event.saveConfigCallback ∉ (manageWifi env file g).trace) :
    (manageWifi env file g).file = file := by
  cases hload : (loadConfig env file g).1 with
  | some o => rw [manageWifi_of_load_some env file g o hload]
  | none =>
    have hnf : (provisioningRun env).saveFired = false := by
      cases h : (provisioningRun env).saveFired
      · rfl
      · exact absurd ((callback_mem_trace env file g).2 ⟨hload, h⟩) hquiet
    rw [manageWifi_of_load_none env file g hload]
    rcases switch_or_connected env with h | ⟨hsw, hc⟩
    · rw [provision_passed env file _ _ h]
      apply (connectedSteps_not_saved env _ file _ _ _).2
      rw [runCallbacks_globals]
      simp [hnf, loadConfig_keeps_flag, hflag]
    · rw [provision_restart env file _ _ hsw hc]

/-- Witness for C6: stored credentials connect and nobody opens the portal. -/
theorem file_unchanged_without_save_witness :
    (manageWifi sampleEnv (some storedFile) sampleDefaults).file = some storedFile :=
  file_unchanged_without_save sampleEnv (some storedFile) sampleDefaults rfl (by decide)

end WifiManagement
